import Mathlib

set_option maxRecDepth 8000

attribute [local semireducible] Rat.mul Rat.inv Rat.add Rat.sub

/-!
A shallow embedding of `TenderGuard/services/chatbot_service.py`.

Modelling choices:
* Python `str` is Lean `String` (a wrapper around `List Char`); the handful of
  string operations the service uses (`lower`, `strip`, `split`) are embedded
  as explicit functions on the character list so that the kernel can evaluate
  them on concrete inputs.
* Python `float` confidences and scores are modelled as `ℚ`.  Every numeric
  literal in the source (`0.3`, `0.7`, `0.9`, seed confidences `1.0`) and every
  score `overlap / max(len, 1)` with small integer operands is far from any
  double rounding boundary, so the rational model is observationally equivalent
  for all the comparisons and products the service performs.
* The remote OpenAI chat-completion call is an external collaborator; it is
  modelled by an oracle value `LLMOutcome` supplied to the resolver: the call
  either succeeds with an optional content string (None models a null
  `message.content`) or raises.
* A Python dict with the three keys message, source and confidence is the
  record `ResultDict`; such a non-empty dict is always truthy, recorded by
  `resultTruthy`.
* The FAQ store `self.faq_database` is an insertion-ordered association list,
  matching dict iteration order; `dictInsert` has Python dict-update semantics
  (overwrite in place keeps the position, a new key is appended at the end).
* Exceptions are modelled with `Except PyExn`: the only operation inside
  the outer `try` of `get_response` that can actually raise is the attribute access
  `message.lower()` on a non-string argument, so the caller-supplied message is
  an `Option String` and `none` raises `attributeError`.
-/

/-- The ASCII apostrophe character, used to spell the service's apology
messages verbatim. -/
def apos : String := String.singleton (Char.ofNat 39)

/-- Helper for `pySplit`: walks the character list accumulating the current
word (in reverse); whitespace ends a word, runs of whitespace collapse, and
leading/trailing whitespace produces no empty tokens — exactly Python
`str.split()` with no arguments. -/
def splitWsAux : List Char → List Char → List String
  | [], [] => []
  | [], acc => [String.mk acc.reverse]
  | c :: cs, acc =>
    if c.isWhitespace then
      match acc with
      | [] => splitWsAux cs []
      | _ :: _ => String.mk acc.reverse :: splitWsAux cs []
    else splitWsAux cs (c :: acc)

/-- Python `s.split()` (no separator argument): whitespace-delimited tokens,
no empty tokens. -/
def pySplit (s : String) : List String := splitWsAux s.data []

/-- Python `s.lower()` (ASCII case folding suffices for the service's data). -/
def pyLower (s : String) : String := String.mk (s.data.map Char.toLower)

/-- Python `s.strip()`: drop leading and trailing whitespace. -/
def pyStrip (s : String) : String :=
  String.mk (((s.data.dropWhile Char.isWhitespace).reverse.dropWhile Char.isWhitespace).reverse)

/-- The normalization `s.lower().strip()` used both for the query
(`clean_message`, line 58) and for FAQ keys (`add_faq_entry`, line 200). -/
def pyNormalize (s : String) : String := pyStrip (pyLower s)

/-- Python `len(set(a) & set(b))`: the number of distinct elements of `a`
that also occur in `b`. -/
def setInterCard (a b : List String) : ℕ :=
  (a.dedup.filter (fun t => decide (t ∈ b))).length

/-- The keyword-overlap score of `_get_faq_response` (lines 166-170):
`overlap = len(set(faq_keywords) & set(message_words))`,
`score = overlap / max(len(faq_keywords), 1)`.  Note the denominator is the
length of the token *list* `faq_key.split()`, duplicates not collapsed. -/
def faqScore (key message : String) : ℚ :=
  (setInterCard (pySplit key) (pySplit message) : ℚ) /
    ((max (pySplit key).length 1 : ℕ) : ℚ)

/-- The score formula as the specification words it (§4.3 step 2): the key is
split into whitespace-delimited token sets with duplicates collapsed and the
denominator is `max(|entry_tokens|, 1)` with `entry_tokens` a *set*.  Kept
only to compare against the source's `faqScore`, whose denominator counts
duplicates. -/
def specFaqScore (key message : String) : ℚ :=
  (setInterCard (pySplit key) (pySplit message) : ℚ) /
    ((max (pySplit key).dedup.length 1 : ℕ) : ℚ)

/-- One value of `self.faq_database`: a dict with an answer and a
confidence. -/
structure FaqEntry where
  answer : String
  confidence : ℚ
  deriving DecidableEq, Repr

/-- `self.faq_database`, an insertion-ordered string-keyed dict. -/
abbrev FaqStore := List (String × FaqEntry)

/-- The dict with message, source and confidence keys produced by every
path of the service. -/
structure ResultDict where
  message : String
  source : String
  confidence : ℚ
  deriving DecidableEq, Repr

/-- Python truthiness of a result dict: a dict with three keys is never empty,
hence always truthy (`if openai_response:` and `if faq_response:` always
take the branch). -/
def resultTruthy (_ : ResultDict) : Bool := true

/-- The default response of `get_response` (lines 75-79). -/
def defaultResult : ResultDict :=
  ⟨"I apologize, but I don" ++ apos ++ "t have a specific answer to your question. Please contact system administrators or check the documentation for more detailed assistance.",
   "default", 3/10⟩

/-- The top-level catch-all response of `get_response` (lines 83-87). -/
def techDiffResult : ResultDict :=
  ⟨"I" ++ apos ++ "m experiencing technical difficulties. Please try again later or contact support.",
   "error", 0⟩

/-- The response `_get_openai_response` builds in its own `except` handler
(lines 151-155). -/
def unableResult : ResultDict :=
  ⟨"I apologize, but I" ++ apos ++ "m currently unable to provide a response. Please try asking a different question or contact support.",
   "error", 0⟩

/-- The no-match response of `_get_faq_response` (lines 183-187). -/
def noMatchResult : ResultDict :=
  ⟨"I couldn" ++ apos ++ "t find an answer to your question in our knowledge base. Please try rephrasing your question or contact support for assistance.",
   "no_match", 0⟩

/-- The defensive `except` response of `_get_faq_response` (lines 189-195);
no operation in the matcher's body can raise, so it is unreachable, but it is
part of the source. -/
def faqErrorResult : ResultDict :=
  ⟨"I encountered an error while searching for an answer. Please try again or contact support.",
   "error", 0⟩

/-- The substitute content when the provider returns `None` content
(line 141). -/
def emptyContentFallback : String :=
  "I apologize, but I couldn" ++ apos ++ "t generate a response. Please try again."

/-- The answer of the seed entry keyed `what is actms`. -/
def actmsAnswer : String :=
  "ACTMS (Anti-Corruption Tender Management System) is a comprehensive platform for managing government tenders with AI-powered fraud detection."

/-- The seed FAQ database built in `__init__` (lines 19-52), in source
order. -/
def seedFaq : FaqStore :=
  [("what is actms", ⟨actmsAnswer, 1⟩),
   ("how to submit bid",
    ⟨"To submit a bid: 1) Select a tender, 2) Enter company information, 3) Provide bid amount and proposal, 4) Upload required documents, 5) Submit for review.", 1⟩),
   ("what is suspicious bid",
    ⟨"A suspicious bid is one flagged by our AI system for unusual patterns like extremely low amounts, poor proposal quality, or suspicious timing.", 1⟩),
   ("how does ai detection work",
    ⟨"Our AI uses Isolation Forest algorithm to analyze bid patterns, amounts, proposal quality, and timing to detect potentially fraudulent submissions.", 1⟩),
   ("what file formats supported",
    ⟨"We support common document formats including PDF, DOC, DOCX, TXT, and XLS files up to 15MB in size.", 1⟩),
   ("how to view tender status",
    ⟨"You can view tender status through the dashboard or by accessing the tenders API endpoint which shows active, closed, and upcoming tenders.", 1⟩),
   ("what is audit log",
    ⟨"Audit logs track all system activities including user actions, bid submissions, and security events for compliance and monitoring.", 1⟩),
   ("how to check system status",
    ⟨"System status can be viewed through the dashboard which shows real-time metrics, alerts, and system health indicators.", 1⟩)]

/-- Truthiness of the optional credential string: Python `None` and the empty
string are falsy (`OPENAI_API_KEY` read at line 15 is used under `if`). -/
def optStrTruthy : Option String → Bool
  | none => false
  | some s => !(s == "")

/-- State of a `ChatbotService` instance: the credential read from the
environment, the optional client handle, and the FAQ dict. -/
structure ChatbotService where
  openai_api_key : Option String
  client : Option Unit
  faq_database : FaqStore

/-- `__init__` (lines 14-52): reads the credential, constructs the client
handle only when the credential is truthy
(`OpenAI(api_key=…) if self.openai_api_key else None`), and seeds the FAQ
dict. -/
def ChatbotService.init (envKey : Option String) : ChatbotService :=
  ⟨envKey, if optStrTruthy envKey then some () else none, seedFaq⟩

/-- Outcome of the remote chat-completion call, an external collaborator:
either a completion whose content may be null, or a raised exception
(network, auth, malformed response). -/
inductive LLMOutcome where
  | success (content : Option String)
  | failure
  deriving DecidableEq, Repr

/-- The exceptions the embedding can observe inside the outer `try` of
`get_response`. -/
inductive PyExn where
  | attributeError
  deriving DecidableEq, Repr

/-- `_get_openai_response` (lines 89-155).  The whole body sits inside
`try`/`except Exception`, so the function never raises: an absent client
(`raise ValueError`, line 122) and a failed remote call both land in the
handler and return `unableResult`.  On success the (possibly substituted)
content is stripped and wrapped with source `openai` and confidence `0.9`.
The prompt assembly (system prompt, optional serialized context) does not
affect the returned dict and is not modelled; `context` is kept as the
serialized text it would contribute. -/
def ChatbotService.get_openai_response (svc : ChatbotService) (oracle : LLMOutcome)
    (_message : String) (_context : Option String) : ResultDict :=
  match svc.client with
  | none => unableResult
  | some _ =>
    match oracle with
    | .failure => unableResult
    | .success content => ⟨pyStrip (content.getD emptyContentFallback), "openai", 9/10⟩

/-- The loop of `_get_faq_response` (lines 161-174): `best_match = None`,
`best_score = 0`, and an entry replaces the current best exactly when
`score > best_score and score > 0.3`. -/
def bestAux (m : String) : Option FaqEntry → ℚ → FaqStore → Option FaqEntry × ℚ
  | best, bestScore, [] => (best, bestScore)
  | best, bestScore, (k, e) :: rest =>
    if bestScore < faqScore k m ∧ (3 : ℚ)/10 < faqScore k m then
      bestAux m (some e) (faqScore k m) rest
    else bestAux m best bestScore rest

/-- `_get_faq_response` (lines 157-195).  Nothing in the body can raise, so
the defensive `except` (returning `faqErrorResult`) is unreachable; the
result is the answer of the best entry with confidence equal to the stored
entry confidence times `best_score`, or `noMatchResult`. -/
def ChatbotService.get_faq_response (store : FaqStore) (message : String) : ResultDict :=
  match bestAux message none 0 store with
  | (some best, bestScore) => ⟨best.answer, "faq", best.confidence * bestScore⟩
  | (none, _) => noMatchResult

/-- The body of the outer `try` of `get_response` (lines 57-79), as an
exception-aware computation.  `message.lower()` on a non-string raises
(modelled by `none`); the adapter call cannot raise (its body is fully
wrapped), so the inner `except` at lines 66-67 — whose log line announces a
fall back to the FAQ — is unreachable; both truthiness tests are on non-empty
dicts and always succeed, so the trailing default is unreachable as well. -/
def ChatbotService.get_response_body (svc : ChatbotService) (oracle : LLMOutcome)
    (message : Option String) (context : Option String) : Except PyExn ResultDict :=
  match message with
  | none => .error .attributeError
  | some msg =>
    match
      cond (svc.client.isSome && optStrTruthy svc.openai_api_key)
        (cond (resultTruthy (ChatbotService.get_openai_response svc oracle msg context))
          (some (ChatbotService.get_openai_response svc oracle msg context)) none)
        none with
    | some r => .ok r
    | none =>
      cond (resultTruthy (ChatbotService.get_faq_response svc.faq_database (pyNormalize msg)))
        (.ok (ChatbotService.get_faq_response svc.faq_database (pyNormalize msg)))
        (.ok defaultResult)

/-- `get_response` (lines 54-87): the body under the outer `try`, with any
escaping exception converted to `techDiffResult` by the outer handler. -/
def ChatbotService.get_response (svc : ChatbotService) (oracle : LLMOutcome)
    (message : Option String) (context : Option String) : ResultDict :=
  match ChatbotService.get_response_body svc oracle message context with
  | .ok r => r
  | .error _ => techDiffResult

/-- Python dict assignment `d[key] = value`: overwrite in place when the key
is present (iteration position preserved), append otherwise. -/
def dictInsert (store : FaqStore) (k : String) (v : FaqEntry) : FaqStore :=
  cond (store.any (fun kv => kv.1 == k))
    (store.map (fun kv => cond (kv.1 == k) (k, v) kv))
    (store ++ [(k, v)])

/-- Dict lookup `d[key]` as an `Option`, following iteration order. -/
def dictLookup : FaqStore → String → Option FaqEntry
  | [], _ => none
  | kv :: rest, k => cond (kv.1 == k) (some kv.2) (dictLookup rest k)

/-- `add_faq_entry` (lines 197-207): normalizes the question to form the key
and stores the answer and the confidence unchanged.  The body cannot raise, so
the swallowing `except` is unreachable. -/
def ChatbotService.add_faq_entry (store : FaqStore) (question answer : String)
    (confidence : ℚ) : FaqStore :=
  dictInsert store (pyNormalize question) ⟨answer, confidence⟩

/-- `is_openai_available` (lines 230-232):
`self.client is not None and self.openai_api_key is not None`. -/
def ChatbotService.is_openai_available (svc : ChatbotService) : Bool :=
  svc.client.isSome && svc.openai_api_key.isSome

/-! ## Helper lemmas -/

/-- The distinct-token overlap is at most the raw token count of the key. -/
lemma setInterCard_le_length (a b : List String) : setInterCard a b ≤ a.length :=
  le_trans (List.length_filter_le _ _) (List.Sublist.length_le (List.dedup_sublist a))

/-- Scores are nonnegative. -/
lemma faqScore_nonneg (key message : String) : 0 ≤ faqScore key message :=
  div_nonneg (Nat.cast_nonneg _) (Nat.cast_nonneg _)

/-- Scores never exceed 1: the overlap counts distinct key tokens present in
the message, which is at most the key's token count, which is at most the
denominator. -/
lemma faqScore_le_one (key message : String) : faqScore key message ≤ 1 := by
  unfold faqScore
  apply div_le_one_of_le₀
  · exact_mod_cast le_trans (setInterCard_le_length _ _) (le_max_left _ _)
  · exact Nat.cast_nonneg _

/-- The empty message tokenizes to the empty list, so every score is 0. -/
lemma faqScore_empty (key : String) : faqScore key "" = 0 := by
  have h : (pySplit key).dedup.filter (fun t => decide (t ∈ pySplit "")) = [] := by
    apply List.filter_eq_nil_iff.mpr
    intro a _
    have hempty : pySplit "" = [] := rfl
    rw [hempty]
    simp
  simp [faqScore, setInterCard, h]

/-- If no remaining entry scores above the current best, the loop keeps the
accumulator unchanged. -/
lemma bestAux_of_le_best (m : String) :
    ∀ (l : FaqStore) (b : Option FaqEntry) (s : ℚ),
      (∀ kv ∈ l, faqScore kv.1 m ≤ s) → bestAux m b s l = (b, s)
  | [], _, _, _ => rfl
  | (k, e) :: tl, b, s, h => by
    have hk : faqScore k m ≤ s := h (k, e) (List.mem_cons_self _ _)
    have hcond : ¬(s < faqScore k m ∧ (3 : ℚ)/10 < faqScore k m) :=
      fun hc => absurd hc.1 (not_lt.mpr hk)
    simp only [bestAux]
    rw [if_neg hcond]
    exact bestAux_of_le_best m tl b s (fun kv hkv => h kv (List.mem_cons_of_mem _ hkv))

/-- If no remaining entry clears the 0.3 threshold, the loop keeps the
accumulator unchanged. -/
lemma bestAux_of_le_threshold (m : String) :
    ∀ (l : FaqStore) (b : Option FaqEntry) (s : ℚ),
      (∀ kv ∈ l, faqScore kv.1 m ≤ 3/10) → bestAux m b s l = (b, s)
  | [], _, _, _ => rfl
  | (k, e) :: tl, b, s, h => by
    have hk : faqScore k m ≤ 3/10 := h (k, e) (List.mem_cons_self _ _)
    have hcond : ¬(s < faqScore k m ∧ (3 : ℚ)/10 < faqScore k m) :=
      fun hc => absurd hc.2 (not_lt.mpr hk)
    simp only [bestAux]
    rw [if_neg hcond]
    exact bestAux_of_le_threshold m tl b s (fun kv hkv => h kv (List.mem_cons_of_mem _ hkv))

/-- Loop invariant: starting from an accumulator that is either the initial
`(None, 0)` or a selected entry satisfying `C` with a score in `(3/10, 1]`,
the loop ends in an accumulator of the same shape. -/
lemma bestAux_inv (m : String) (C : FaqEntry → Prop) :
    ∀ (l : FaqStore), (∀ kv ∈ l, C kv.2) →
      ∀ (b : Option FaqEntry) (s : ℚ),
        ((b = none ∧ s = 0) ∨ (∃ e, b = some e ∧ C e ∧ (3 : ℚ)/10 < s ∧ s ≤ 1)) →
        (((bestAux m b s l).1 = none ∧ (bestAux m b s l).2 = 0) ∨
          (∃ e, (bestAux m b s l).1 = some e ∧ C e ∧
            (3 : ℚ)/10 < (bestAux m b s l).2 ∧ (bestAux m b s l).2 ≤ 1))
  | [], _, b, s, hacc => by
    simpa only [bestAux] using hacc
  | (k, e) :: tl, hl, b, s, hacc => by
    simp only [bestAux]
    split_ifs with hcond
    · exact bestAux_inv m C tl (fun kv hkv => hl kv (List.mem_cons_of_mem _ hkv))
        (some e) (faqScore k m)
        (Or.inr ⟨e, rfl, hl (k, e) (List.mem_cons_self _ _), hcond.2, faqScore_le_one k m⟩)
    · exact bestAux_inv m C tl (fun kv hkv => hl kv (List.mem_cons_of_mem _ hkv)) b s hacc

/-- The FAQ matcher either reports a no-match, or reports a matched entry:
then its source is `faq` and, when every stored confidence lies in `[0,1]`,
its confidence lies in `[0,1]` as well. -/
lemma get_faq_response_cases (store : FaqStore) (m : String)
    (h : ∀ kv ∈ store, 0 ≤ kv.2.confidence ∧ kv.2.confidence ≤ 1) :
    ChatbotService.get_faq_response store m = noMatchResult ∨
      ((ChatbotService.get_faq_response store m).source = "faq" ∧
        0 ≤ (ChatbotService.get_faq_response store m).confidence ∧
        (ChatbotService.get_faq_response store m).confidence ≤ 1) := by
  have hinv := bestAux_inv m (fun e => 0 ≤ e.confidence ∧ e.confidence ≤ 1) store h none 0
    (Or.inl ⟨rfl, rfl⟩)
  unfold ChatbotService.get_faq_response
  rcases hq : bestAux m none 0 store with ⟨b, s⟩
  rw [hq] at hinv
  rcases hinv with ⟨h1, _⟩ | ⟨e, h1, hC, hgt, hle⟩ <;> simp only at h1
  · subst h1
    exact Or.inl rfl
  · subst h1
    refine Or.inr ⟨rfl, ?_, ?_⟩
    · exact mul_nonneg hC.1 (le_trans (by norm_num) hgt.le)
    · calc e.confidence * s ≤ 1 * 1 :=
          mul_le_mul hC.2 hle (le_trans (by norm_num) hgt.le) zero_le_one
        _ = 1 := one_mul 1

/-- If index `i` carries the first maximal score, that score clears the
threshold, and it exceeds the incoming accumulator score, then the loop ends
with exactly entry `i` and its score. -/
lemma bestAux_argmax (m : String) :
    ∀ (l : FaqStore) (b : Option FaqEntry) (s₀ : ℚ) (i : Fin l.length),
      (3 : ℚ)/10 < faqScore (l.get i).1 m →
      s₀ < faqScore (l.get i).1 m →
      (∀ j : Fin l.length, faqScore (l.get j).1 m ≤ faqScore (l.get i).1 m) →
      (∀ j : Fin l.length, (j : ℕ) < (i : ℕ) →
        faqScore (l.get j).1 m < faqScore (l.get i).1 m) →
      bestAux m b s₀ l = (some (l.get i).2, faqScore (l.get i).1 m)
  | [], _, _, i, _, _, _, _ => i.elim0
  | (k, e) :: tl, b, s₀, ⟨0, h0⟩, hthr, hs₀, hmax, _ => by
    have hget0 : ((k, e) :: tl).get ⟨0, h0⟩ = (k, e) := rfl
    rw [hget0] at hthr hs₀ hmax ⊢
    simp only [bestAux]
    rw [if_pos ⟨hs₀, hthr⟩]
    apply bestAux_of_le_best
    intro kv hkv
    obtain ⟨n, hn⟩ := List.mem_iff_get.mp hkv
    have hstep := hmax ⟨n.1 + 1, Nat.succ_lt_succ n.2⟩
    rwa [show ((k, e) :: tl).get ⟨n.1 + 1, Nat.succ_lt_succ n.2⟩ = tl.get n from rfl, hn]
      at hstep
  | (k, e) :: tl, b, s₀, ⟨j+1, hj⟩, hthr, hs₀, hmax, hfirst => by
    have hj' : j < tl.length := Nat.lt_of_succ_lt_succ hj
    have hget : ((k, e) :: tl).get ⟨j + 1, hj⟩ = tl.get ⟨j, hj'⟩ := rfl
    rw [hget] at hthr hs₀ hmax hfirst ⊢
    have hmax' : ∀ j' : Fin tl.length,
        faqScore (tl.get j').1 m ≤ faqScore (tl.get ⟨j, hj'⟩).1 m := by
      intro j'
      have hstep := hmax ⟨j'.1 + 1, Nat.succ_lt_succ j'.2⟩
      rwa [show ((k, e) :: tl).get ⟨j'.1 + 1, Nat.succ_lt_succ j'.2⟩ = tl.get j' from rfl]
        at hstep
    have hfirst' : ∀ j' : Fin tl.length, (j' : ℕ) < j →
        faqScore (tl.get j').1 m < faqScore (tl.get ⟨j, hj'⟩).1 m := by
      intro j' hlt
      have hstep := hfirst ⟨j'.1 + 1, Nat.succ_lt_succ j'.2⟩ (Nat.succ_lt_succ hlt)
      rwa [show ((k, e) :: tl).get ⟨j'.1 + 1, Nat.succ_lt_succ j'.2⟩ = tl.get j' from rfl]
        at hstep
    have hhead : faqScore k m < faqScore (tl.get ⟨j, hj'⟩).1 m := by
      have hstep := hfirst ⟨0, Nat.succ_pos _⟩ (Nat.succ_pos _)
      rwa [show ((k, e) :: tl).get ⟨0, Nat.succ_pos _⟩ = (k, e) from rfl] at hstep
    simp only [bestAux]
    split_ifs with hcond
    · exact bestAux_argmax m tl (some e) (faqScore k m) ⟨j, hj'⟩ hthr hhead hmax' hfirst'
    · exact bestAux_argmax m tl b s₀ ⟨j, hj'⟩ hthr hs₀ hmax' hfirst'

/-- Updating an existing key rewrites exactly that key's entry. -/
lemma dictLookup_map_self (k : String) (v : FaqEntry) :
    ∀ (store : FaqStore), store.any (fun kv => kv.1 == k) = true →
      dictLookup (store.map (fun kv => cond (kv.1 == k) (k, v) kv)) k = some v
  | [], h => by simp at h
  | (k₁, e₁) :: tl, h => by
    cases h1 : (k₁ == k) with
    | false =>
      have htl : tl.any (fun kv => kv.1 == k) = true := by simpa [h1] using h
      simp only [List.map_cons, h1, Bool.cond_false, dictLookup]
      exact dictLookup_map_self k v tl htl
    | true =>
      simp [List.map_cons, h1, dictLookup]

/-- Appending a fresh key makes it found at the end. -/
lemma dictLookup_append_self (k : String) (v : FaqEntry) :
    ∀ (store : FaqStore), store.any (fun kv => kv.1 == k) = false →
      dictLookup (store ++ [(k, v)]) k = some v
  | [], _ => by simp [dictLookup]
  | (k₁, e₁) :: tl, h => by
    rw [List.any_cons] at h
    have h1 : (k₁ == k) = false := by
      cases hb : (k₁ == k) with
      | false => rfl
      | true => simp [hb] at h
    have htl : tl.any (fun kv => kv.1 == k) = false := by simpa [h1] using h
    simp only [List.cons_append, dictLookup, h1, Bool.cond_false]
    exact dictLookup_append_self k v tl htl

/-- Updating key `k` leaves lookups at any other key unchanged. -/
lemma dictLookup_map_other (k k' : String) (v : FaqEntry) (hne : k' ≠ k) :
    ∀ (store : FaqStore),
      dictLookup (store.map (fun kv => cond (kv.1 == k) (k, v) kv)) k' = dictLookup store k'
  | [] => rfl
  | (k₁, e₁) :: tl => by
    cases h1 : (k₁ == k) with
    | false =>
      simp only [List.map_cons, h1, Bool.cond_false, dictLookup]
      cases h2 : (k₁ == k') with
      | false => simp only [h2, Bool.cond_false]; exact dictLookup_map_other k k' v hne tl
      | true => simp only [h2, Bool.cond_true]
    | true =>
      have hk1 : k₁ = k := by simpa using h1
      have hkk' : (k == k') = false := by simpa using (Ne.symm hne)
      have hk1k' : (k₁ == k') = false := by rw [hk1]; exact hkk'
      simp only [List.map_cons, h1, Bool.cond_true, dictLookup, hkk', hk1k', Bool.cond_false]
      exact dictLookup_map_other k k' v hne tl

/-- Appending key `k` leaves lookups at any other key unchanged. -/
lemma dictLookup_append_other (k k' : String) (v : FaqEntry) (hne : k' ≠ k) :
    ∀ (store : FaqStore), dictLookup (store ++ [(k, v)]) k' = dictLookup store k'
  | [] => by
    have hkk' : (k == k') = false := by simpa using (Ne.symm hne)
    simp [dictLookup, hkk']
  | (k₁, e₁) :: tl => by
    simp only [List.cons_append, dictLookup]
    cases h2 : (k₁ == k') with
    | false => simp only [Bool.cond_false]; exact dictLookup_append_other k k' v hne tl
    | true => simp only [Bool.cond_true]

/-- Dict assignment stores the new value at the assigned key. -/
lemma dictLookup_insert_self (store : FaqStore) (k : String) (v : FaqEntry) :
    dictLookup (dictInsert store k v) k = some v := by
  unfold dictInsert
  cases hany : store.any (fun kv => kv.1 == k) with
  | false => simpa using dictLookup_append_self k v store hany
  | true => simpa using dictLookup_map_self k v store hany

/-- Dict assignment leaves every other key's lookup unchanged. -/
lemma dictLookup_insert_other (store : FaqStore) (k k' : String) (v : FaqEntry)
    (hne : k' ≠ k) :
    dictLookup (dictInsert store k v) k' = dictLookup store k' := by
  unfold dictInsert
  cases hany : store.any (fun kv => kv.1 == k) with
  | false => simpa using dictLookup_append_other k k' v hne store
  | true => simpa using dictLookup_map_other k k' v hne store

/-! ## Claims -/

/-- C1 (code_bug): the claim — and the log line of the source itself, which
announces a fall back to the FAQ on an OpenAI API error — say an adapter
failure is logged and resolution continues to the FAQ tier.  In the code the
adapter catches every exception itself and returns a truthy error dict, which
`get_response` returns immediately: with a client configured and a failing
remote call, the caller receives `unableResult` (source `error`,
confidence 0), even for the message `what is actms` that the FAQ tier would
have answered with source `faq`. -/
theorem C1_code_behavior :
    ChatbotService.get_response (ChatbotService.init (some "sk-test")) LLMOutcome.failure
        (some "what is actms") none = unableResult ∧
    unableResult.source = "error" ∧ unableResult.confidence = 0 ∧
    (ChatbotService.get_faq_response seedFaq "what is actms").source = "faq" := by
  decide

/-- C2 (counterexample): with no LLM client and a message matching no FAQ
entry, `get_response` returns the no-match dict produced by
`_get_faq_response` — which is truthy and returned as-is — not the fixed
default result the claim describes. -/
theorem C2_counterexample :
    ChatbotService.get_response (ChatbotService.init none) LLMOutcome.failure
        (some "xyzzy") none = noMatchResult ∧
    noMatchResult.source ≠ "default" ∧ noMatchResult.confidence ≠ 3/10 := by
  decide

/-- C2 (amended): with the LLM tier absent and no FAQ entry scoring above the
0.3 threshold for the normalized message, `get_response` returns the fixed
no-match result (the could-not-find-an-answer text, source `no_match`,
confidence 0); the `default` branch of `get_response` is unreachable. -/
theorem C2_amended (svc : ChatbotService) (oracle : LLMOutcome) (m : String)
    (context : Option String) (hclient : svc.client = none)
    (hfaq : ∀ kv ∈ svc.faq_database, faqScore kv.1 (pyNormalize m) ≤ 3/10) :
    ChatbotService.get_response svc oracle (some m) context = noMatchResult := by
  have hfr : ChatbotService.get_faq_response svc.faq_database (pyNormalize m)
      = noMatchResult := by
    unfold ChatbotService.get_faq_response
    rw [bestAux_of_le_threshold (pyNormalize m) svc.faq_database none 0 hfaq]
  unfold ChatbotService.get_response ChatbotService.get_response_body
  simp [hclient, resultTruthy, hfr]

/-- C2 (witness): the amended statement instantiated at the seed store and
the unmatched message `xyzzy`. -/
theorem C2_amended_witness :
    ChatbotService.get_response (ChatbotService.init none) LLMOutcome.failure
        (some "xyzzy") none = noMatchResult := by
  apply C2_amended
  · rfl
  · decide

/-- C3 (counterexample): the result source can be `no_match`, which is not
among the four values llm, faq, default, error the claim allows. -/
theorem C3_counterexample :
    (ChatbotService.get_response (ChatbotService.init none) LLMOutcome.failure
        (some "xyzzy") none).source = "no_match" ∧
    "no_match" ∉ (["llm", "faq", "default", "error"] : List String) := by
  decide

/-- C3 (amended): for every service state, oracle behavior, message and
context, the source of the result is one of openai, faq, no_match, error
(the code tags LLM answers `openai`, not `llm`, and the no-FAQ-match tag
`no_match` is reachable while `default` is not), and — provided every
stored entry confidence lies in `[0,1]`, which `add_faq_entry` does not
enforce — the result confidence lies in `[0,1]`. -/
theorem C3_amended (svc : ChatbotService) (oracle : LLMOutcome)
    (message context : Option String)
    (hstore : ∀ kv ∈ svc.faq_database, 0 ≤ kv.2.confidence ∧ kv.2.confidence ≤ 1) :
    (ChatbotService.get_response svc oracle message context).source ∈
        (["openai", "faq", "no_match", "error"] : List String) ∧
    0 ≤ (ChatbotService.get_response svc oracle message context).confidence ∧
    (ChatbotService.get_response svc oracle message context).confidence ≤ 1 := by
  unfold ChatbotService.get_response ChatbotService.get_response_body
  cases message with
  | none => simp [techDiffResult]
  | some msg =>
    cases hllm : (svc.client.isSome && optStrTruthy svc.openai_api_key) with
    | false =>
      simp only [hllm, Bool.cond_false, resultTruthy, Bool.cond_true]
      rcases get_faq_response_cases svc.faq_database (pyNormalize msg) hstore with
        h | ⟨h1, h2, h3⟩
      · simp [h, noMatchResult]
      · simp [h1, h2, h3]
    | true =>
      simp only [hllm, Bool.cond_true, resultTruthy]
      unfold ChatbotService.get_openai_response
      cases svc.client with
      | none => simp [unableResult]
      | some u =>
        cases oracle with
        | failure => simp [unableResult]
        | success content =>
          refine ⟨by simp, by norm_num, by norm_num⟩

/-- C3 (witness): the amended statement at the seed store (all confidences 1)
with no client and a message the FAQ answers. -/
theorem C3_amended_witness :
    (ChatbotService.get_response (ChatbotService.init none) LLMOutcome.failure
        (some "what is actms") none).source ∈
        (["openai", "faq", "no_match", "error"] : List String) ∧
    0 ≤ (ChatbotService.get_response (ChatbotService.init none) LLMOutcome.failure
        (some "what is actms") none).confidence ∧
    (ChatbotService.get_response (ChatbotService.init none) LLMOutcome.failure
        (some "what is actms") none).confidence ≤ 1 :=
  C3_amended (ChatbotService.init none) LLMOutcome.failure (some "what is actms") none
    (by decide)

/-- C4 (counterexample): the claim computes the score denominator from the
entry's token *set* (duplicates collapsed); the code uses the raw token list
length.  On the store holding one entry keyed `go go go` (reachable via
`add_faq_entry`) and the message `go`, the spec formula yields 1 while the
code computes 1/3 and returns confidence 1/3, not 1. -/
theorem C4_counterexample :
    faqScore "go go go" "go" = 1/3 ∧
    specFaqScore "go go go" "go" = 1 ∧
    ChatbotService.get_faq_response [("go go go", ⟨"a", 1⟩)] "go" = ⟨"a", "faq", 1/3⟩ ∧
    ((1 : ℚ)/3 ≠ 1) := by
  decide

/-- C4 (amended): the matcher scores each entry as
`|distinct entry tokens ∩ message tokens| / max(#entry tokens with
duplicates, 1)`; an entry is eligible only above the strict 0.3 threshold;
the scan keeps the first entry attaining the maximal score (a strictly
greater score is needed to replace the current best); on success it returns
the answer of that entry with source `faq` and confidence
`entry.confidence * score`, and when no entry clears the threshold it
returns the no-match result. -/
theorem C4_amended (store : FaqStore) (m : String) :
    (∀ k : String, faqScore k m =
      (setInterCard (pySplit k) (pySplit m) : ℚ) / ((max (pySplit k).length 1 : ℕ) : ℚ)) ∧
    ((∀ kv ∈ store, faqScore kv.1 m ≤ 3/10) →
      ChatbotService.get_faq_response store m = noMatchResult) ∧
    (∀ i : Fin store.length,
      (3 : ℚ)/10 < faqScore (store.get i).1 m →
      (∀ j : Fin store.length, faqScore (store.get j).1 m ≤ faqScore (store.get i).1 m) →
      (∀ j : Fin store.length, (j : ℕ) < (i : ℕ) →
        faqScore (store.get j).1 m < faqScore (store.get i).1 m) →
      ChatbotService.get_faq_response store m =
        ⟨(store.get i).2.answer, "faq",
          (store.get i).2.confidence * faqScore (store.get i).1 m⟩) := by
  refine ⟨fun _ => rfl, fun h => ?_, fun i hthr hmax hfirst => ?_⟩
  · unfold ChatbotService.get_faq_response
    rw [bestAux_of_le_threshold m store none 0 h]
  · unfold ChatbotService.get_faq_response
    rw [bestAux_argmax m store none 0 i hthr (lt_trans (by norm_num) hthr) hmax hfirst]

/-- C4 (witness): the amended statement at the seed store with the message
`what is actms`, whose first entry is the unique argmax with score 1. -/
theorem C4_amended_witness :
    ChatbotService.get_faq_response seedFaq "what is actms" = ⟨actmsAnswer, "faq", 1⟩ := by
  have h := (C4_amended seedFaq "what is actms").2.2 ⟨0, by decide⟩ (by decide) (by decide)
    (by decide)
  exact h.trans (by decide)

/-- C5: adding the entry New Question with answer New answer at confidence
0.8 stores it under
the normalized key `new question`, and matching `new question` returns
the new answer with confidence `0.8 * 1 = 0.8`. -/
theorem C5_add_then_match :
    dictLookup (ChatbotService.add_faq_entry seedFaq "New Question" "New answer" (8/10))
        "new question" = some ⟨"New answer", 8/10⟩ ∧
    ChatbotService.get_faq_response
        (ChatbotService.add_faq_entry seedFaq "New Question" "New answer" (8/10))
        "new question" = ⟨"New answer", "faq", 8/10⟩ := by
  decide

/-- C6: for every FAQ store, matching the empty message yields the fixed
no-match result (source `no_match`, confidence 0): the empty message
tokenizes to the empty set, so the overlap — hence score — of every entry is 0,
below the threshold. -/
theorem C6_empty_message_no_match (store : FaqStore) :
    ChatbotService.get_faq_response store "" = noMatchResult := by
  unfold ChatbotService.get_faq_response
  rw [bestAux_of_le_threshold "" store none 0 ?h]
  case h =>
    intro kv _
    rw [faqScore_empty]
    norm_num

/-- C7 (counterexample): on the seed store the query
`tell me about actms system` matches the ACTMS entry with score 1/3 — only
`actms` of the three key tokens `what is actms` occurs in the message —
not the 2/3 the claim asserts. -/
theorem C7_counterexample :
    ChatbotService.get_faq_response seedFaq "tell me about actms system"
        = ⟨actmsAnswer, "faq", 1/3⟩ ∧
    ((1 : ℚ)/3 ≠ 2/3) := by
  decide

/-- C7 (amended): the computed score is 1/3, it clears the strict 0.3
threshold, and the ACTMS answer is returned with confidence
`1 * 1/3 = 1/3`. -/
theorem C7_amended :
    faqScore "what is actms" "tell me about actms system" = 1/3 ∧
    (3 : ℚ)/10 < 1/3 ∧
    ChatbotService.get_faq_response seedFaq "tell me about actms system"
        = ⟨actmsAnswer, "faq", 1/3⟩ := by
  decide

/-- C8: `is_openai_available` is true exactly when both the client handle and
the credential recorded at construction are present, and in particular false
when no credential was supplied.  It reads two fields of the instance and is
a total pure function: no side effects, no failure modes. -/
theorem C8_availability (envKey : Option String) :
    (ChatbotService.is_openai_available (ChatbotService.init envKey) = true ↔
      ((ChatbotService.init envKey).client.isSome = true ∧
        (ChatbotService.init envKey).openai_api_key.isSome = true)) ∧
    ChatbotService.is_openai_available (ChatbotService.init none) = false := by
  constructor
  · simp [ChatbotService.is_openai_available, Bool.and_eq_true]
  · rfl

/-- C9: `get_response` is total — it always returns a well-formed result
dict — and whenever the body under its outer `try` raises, the outer handler
converts the exception into the fixed technical-difficulties result with
source `error` and confidence 0. -/
theorem C9_outer_handler (svc : ChatbotService) (oracle : LLMOutcome)
    (message context : Option String) (e : PyExn)
    (h : ChatbotService.get_response_body svc oracle message context = .error e) :
    ChatbotService.get_response svc oracle message context = techDiffResult := by
  unfold ChatbotService.get_response
  rw [h]

/-- C9 (witness): a `None` message makes `message.lower()` raise an
`AttributeError` inside the body, and `get_response` returns the
technical-difficulties result. -/
theorem C9_outer_handler_witness :
    ChatbotService.get_response_body (ChatbotService.init none) LLMOutcome.failure none none
        = Except.error PyExn.attributeError ∧
    ChatbotService.get_response (ChatbotService.init none) LLMOutcome.failure none none
        = techDiffResult :=
  ⟨rfl, C9_outer_handler (ChatbotService.init none) LLMOutcome.failure none none
    PyExn.attributeError rfl⟩

/-- C10: `add_faq_entry` stores exactly `{answer, confidence}` — the
confidence unclamped and unvalidated, any rational accepted — under the
single normalized key `lower(strip(question))`, and lookups at every other
key are unchanged. -/
theorem C10_frame (store : FaqStore) (question answer : String) (c : ℚ) (k : String)
    (hk : k ≠ pyNormalize question) :
    dictLookup (ChatbotService.add_faq_entry store question answer c) (pyNormalize question)
        = some ⟨answer, c⟩ ∧
    dictLookup (ChatbotService.add_faq_entry store question answer c) k
        = dictLookup store k :=
  ⟨dictLookup_insert_self store (pyNormalize question) ⟨answer, c⟩,
   dictLookup_insert_other store (pyNormalize question) k ⟨answer, c⟩ hk⟩

/-- C10 (witness): the frame property instantiated at the seed store with the
out-of-range confidence 3/2 and the untouched key `what is actms`. -/
theorem C10_frame_witness :
    dictLookup (ChatbotService.add_faq_entry seedFaq "New Question" "New answer" (3/2))
        (pyNormalize "New Question") = some ⟨"New answer", 3/2⟩ ∧
    dictLookup (ChatbotService.add_faq_entry seedFaq "New Question" "New answer" (3/2))
        "what is actms" = dictLookup seedFaq "what is actms" :=
  C10_frame seedFaq "New Question" "New answer" (3/2) "what is actms" (by decide)
